import Mathlib

/-!
Verification of the hotel-booking backend (Express/Mongoose/Stripe stack).

The definitions below are a shallow embedding of the TypeScript route
handlers and middleware of the repository:

* search-query construction and pagination from the hotels router
  (constructSearchQuery, the search handler of router.get "/search"),
* the booking confirmation flow (router.post "/:hotelId/bookings"),
* the admin booking deletion (router.delete "/:id" of the bookings router),
* the booking status update (router.patch "/:id/status"),
* the auth middleware (verifyToken) and the role gate (requireRole),
* the review creation handler (router.post "/:hotelId" of the reviews
  router) and the owner check of the hotel update route.

JavaScript-specific behaviour is modelled explicitly: parseInt returning
NaN is modelled as Option.none, truthiness of strings and numbers is
modelled by explicit emptiness and zero tests, and MongoDB operators
are given their documented semantics on the embedded documents.
-/

namespace HotelBooking

/-! ### String helpers (case-insensitive substring matching) -/

/-- Lower-case a string into its character list. -/
def lowerChars (s : String) : List Char :=
  s.toList.map Char.toLower

/-- Does the second list occur at the head of the first list? -/
def listBeginsWith : List Char → List Char → Bool
  | _, [] => true
  | [], _ :: _ => false
  | a :: t, b :: u => (a == b) && listBeginsWith t u

/-- Does the second list occur contiguously inside the first list? -/
def listHasSub : List Char → List Char → Bool
  | hay, pat =>
    match hay with
    | [] => pat.isEmpty
    | _ :: t => listBeginsWith hay pat || listHasSub t pat

/-- Case-insensitive substring test: does the pattern occur inside the
text ignoring case?  This models the regex filter
regex destination with the i option applied to plain
(metacharacter-free) destination strings. -/
def icontains (pat text : String) : Bool :=
  listHasSub (lowerChars text) (lowerChars pat)

/-! ### JavaScript parseInt -/

/-- Fold a digit list into a natural number. -/
def digitsVal (ds : List Char) : Nat :=
  ds.foldl (fun a c => a * 10 + (c.toNat - ('0').toNat)) 0

/-- Trim whitespace from both ends of a string, as the JavaScript trim
method does.  Implemented on character lists so that it evaluates in
the kernel. -/
def jsTrim (s : String) : String :=
  ⟨((s.toList.dropWhile Char.isWhitespace).reverse.dropWhile
      Char.isWhitespace).reverse⟩

/-- JavaScript parseInt on a base-10 string: leading whitespace is
skipped, an optional sign is read, then the longest digit run is taken;
if no digit is found the result is NaN, modelled as none. -/
def parseIntOpt (s : String) : Option Int :=
  let cs := s.toList.dropWhile Char.isWhitespace
  let signAndRest : Int × List Char :=
    match cs with
    | '-' :: t => (-1, t)
    | '+' :: t => (1, t)
    | _ => (1, cs)
  let ds := signAndRest.2.takeWhile Char.isDigit
  if ds.isEmpty then none
  else some (signAndRest.1 * (digitsVal ds : Int))

/-! ### Hotel documents -/

/-- A hotel document, with the fields used by search and by the
aggregate counters. -/
structure HotelDoc where
  id : String
  userId : String
  city : String
  country : String
  facilities : List String
  type : List String
  starRating : Int
  pricePerNight : Int
  adultCount : Int
  childCount : Int
  totalBookings : Int
  totalRevenue : Int
  averageRating : Rat
  reviewCount : Int
  deriving DecidableEq

/-! ### Search query construction -/

/-- A query-string value that is either a single string or an array of
strings, mirroring the Array.isArray branches of constructSearchQuery. -/
inductive StrOrArr where
  | str (s : String)
  | arr (l : List String)
  deriving DecidableEq

/-- The value list of a query parameter: a single string is wrapped
into a one-element array exactly as the source does. -/
def StrOrArr.toList : StrOrArr → List String
  | .str s => [s]
  | .arr l => l

/-- JavaScript truthiness of a query-string value: an empty string is
falsy, any other string and any array (even empty) is truthy. -/
def StrOrArr.truthy : StrOrArr → Bool
  | .str s => !(s == "")
  | .arr _ => true

/-- JavaScript truthiness of an optional string parameter. -/
def strTruthy : Option String → Bool
  | none => false
  | some s => !(s == "")

/-- The optional search parameters taken from the query string. -/
structure SearchParams where
  destination : Option String := none
  facilities : Option StrOrArr := none
  types : Option StrOrArr := none
  stars : Option StrOrArr := none
  maxPrice : Option String := none
  adultCount : Option String := none
  childCount : Option String := none
  deriving DecidableEq

/-- The constructed MongoDB filter object.  A present field is the
corresponding clause of the query; inner none values model NaN
produced by parseInt on non-numeric input. -/
structure SearchQuery where
  destOr : Option String := none
  facilitiesAll : Option (List String) := none
  typeIn : Option (List String) := none
  starIn : Option (List (Option Int)) := none
  priceLte : Option (Option Int) := none
  adultGte : Option Int := none
  childGte : Option Int := none
  deriving DecidableEq

/-- Embedding of constructSearchQuery: each conditional clause of the
source becomes one field of the filter object.  The stars and maxPrice
clauses apply parseInt without a NaN guard, exactly as the source does;
only adultCount and childCount are guarded by isNaN. -/
def constructSearchQuery (q : SearchParams) : SearchQuery where
  destOr :=
    match q.destination with
    | some d => if jsTrim d == "" then none else some (jsTrim d)
    | none => none
  facilitiesAll :=
    match q.facilities with
    | some v => if v.truthy then some v.toList else none
    | none => none
  typeIn :=
    match q.types with
    | some v => if v.truthy then some v.toList else none
    | none => none
  starIn :=
    match q.stars with
    | some v => if v.truthy then some (v.toList.map parseIntOpt) else none
    | none => none
  priceLte :=
    match q.maxPrice with
    | some s => if s == "" then none else some (parseIntOpt s)
    | none => none
  adultGte :=
    match q.adultCount with
    | some s =>
      if s == "" then none
      else match parseIntOpt s with
        | some n => some n
        | none => none
    | none => none
  childGte :=
    match q.childCount with
    | some s =>
      if s == "" then none
      else match parseIntOpt s with
        | some n => some n
        | none => none
    | none => none

/-- The or clause on city and country: a case-insensitive substring
match of the destination pattern against either field. -/
def destClause (cq : SearchQuery) (h : HotelDoc) : Bool :=
  match cq.destOr with
  | none => true
  | some d => icontains d h.city || icontains d h.country

/-- The all clause on facilities: every listed facility must be
present.  An all clause with an empty list matches no document, as
MongoDB specifies. -/
def facClause (cq : SearchQuery) (h : HotelDoc) : Bool :=
  match cq.facilitiesAll with
  | none => true
  | some fs => !fs.isEmpty && fs.all (fun f => h.facilities.contains f)

/-- The in clause on the array field type: it matches when some element
of the hotel type list is listed. -/
def typeClause (cq : SearchQuery) (h : HotelDoc) : Bool :=
  match cq.typeIn with
  | none => true
  | some ts => h.type.any (fun t => ts.contains t)

/-- The in clause on starRating: the rating must equal one of the
parsed values; a NaN entry (none) matches no number. -/
def starClause (cq : SearchQuery) (h : HotelDoc) : Bool :=
  match cq.starIn with
  | none => true
  | some ss => ss.any (fun s => s == some h.starRating)

/-- The lte clause on pricePerNight; a comparison against NaN matches
no number. -/
def priceClause (cq : SearchQuery) (h : HotelDoc) : Bool :=
  match cq.priceLte with
  | none => true
  | some none => false
  | some (some m) => decide (h.pricePerNight ≤ m)

/-- The gte clause on adultCount. -/
def adultClause (cq : SearchQuery) (h : HotelDoc) : Bool :=
  match cq.adultGte with
  | none => true
  | some n => decide (h.adultCount ≥ n)

/-- The gte clause on childCount. -/
def childClause (cq : SearchQuery) (h : HotelDoc) : Bool :=
  match cq.childGte with
  | none => true
  | some n => decide (h.childCount ≥ n)

/-- MongoDB semantics of the constructed filter on one hotel document:
the conjunction of all present clauses. -/
def matchesQuery (cq : SearchQuery) (h : HotelDoc) : Bool :=
  destClause cq h && facClause cq h && typeClause cq h && starClause cq h &&
    priceClause cq h && adultClause cq h && childClause cq h

/-! ### Search pagination -/

/-- The fixed page size of the search handler. -/
def pageSize : Nat := 5

/-- The page number computed by the search handler:
parseInt applied to the page parameter when that parameter is truthy,
and to the string "1" otherwise.  A non-numeric page parameter yields
NaN (none); it does not default to 1. -/
def pageNumberOf (page : Option String) : Option Int :=
  parseIntOpt (match page with
    | some s => if s == "" then "1" else s
    | none => "1")

/-- The pagination metadata of the search response. -/
structure Pagination where
  total : Nat
  page : Int
  pages : Nat
  deriving DecidableEq

/-- The search response: one page of the matching hotels plus
pagination metadata. -/
structure SearchResponse where
  data : List HotelDoc
  pagination : Pagination
  deriving DecidableEq

/-- The page assembly of the search handler for a numeric page number:
skip (page - 1) * pageSize sorted matching documents, take pageSize of
them, and report total together with pages = ceil(total / pageSize). -/
def searchPage (matching : List HotelDoc) (pageNumber : Int) : SearchResponse where
  data := ((matching.drop ((pageNumber - 1) * (pageSize : Int)).toNat).take pageSize)
  pagination :=
    { total := matching.length
      page := pageNumber
      pages := (matching.length + pageSize - 1) / pageSize }

/-! ### Night counting and the booking validator -/

/-- Milliseconds per day. -/
def MS_PER_DAY : Int := 1000 * 60 * 60 * 24

/-- Embedding of toMidnightUTC on a millisecond timestamp: rebuilding
the date from its UTC calendar fields floors the timestamp to the start
of its UTC day. -/
def toMidnightUTC (t : Int) : Int :=
  MS_PER_DAY * (t.fdiv MS_PER_DAY)

/-- Embedding of diffNights: the difference of the two midnight
timestamps in days.  Both operands are multiples of MS_PER_DAY, so the
division is exact. -/
def diffNights (start finish : Int) : Int :=
  (toMidnightUTC finish - toMidnightUTC start) / MS_PER_DAY

/-- The body of a booking confirmation request, after the field-level
validators (presence of paymentIntentId, numeric totalCost, ISO dates)
have passed.  Dates are millisecond timestamps.  numberOfNights is the
optionally supplied night count. -/
structure BookingBody where
  paymentIntentId : String
  totalCost : Int
  checkIn : Int
  checkOut : Int
  numberOfNights : Option Int := none
  deriving DecidableEq

/-- The custom validator of the booking confirmation route: reject when
the computed night count is below 1, and reject when a truthy (i.e.
non-zero) numberOfNights was supplied that differs from the computed
night count.  A supplied numberOfNights of 0 is falsy in JavaScript and
skips the mismatch check. -/
def bookingValidator (b : BookingBody) : Bool :=
  let nights := diffNights b.checkIn b.checkOut
  if nights < 1 then false
  else
    match b.numberOfNights with
    | some k => !(!(k == 0) && !(k == nights))
    | none => true

/-! ### Database documents and state -/

/-- A booking document. -/
structure BookingDoc where
  id : String
  userId : String
  hotelId : String
  totalCost : Int
  checkIn : Int
  checkOut : Int
  status : String
  paymentStatus : String
  cancellationReason : Option String := none
  refundAmount : Option Int := none
  deriving DecidableEq

/-- A user document, with the denormalized counters. -/
structure UserDoc where
  id : String
  totalBookings : Int
  totalSpent : Int
  deriving DecidableEq

/-- A review document. -/
structure ReviewDoc where
  userId : String
  hotelId : String
  bookingId : String
  rating : Int
  comment : String
  isVerified : Bool
  deriving DecidableEq

/-- The persistent state touched by the modelled handlers. -/
structure DB where
  hotels : List HotelDoc
  users : List UserDoc
  bookings : List BookingDoc
  reviews : List ReviewDoc
  deriving DecidableEq

/-- findById on the hotels collection. -/
def findHotel (db : DB) (hid : String) : Option HotelDoc :=
  db.hotels.find? (fun h => h.id == hid)

/-- findById on the users collection. -/
def findUser (db : DB) (uid : String) : Option UserDoc :=
  db.users.find? (fun u => u.id == uid)

/-- findById on the bookings collection. -/
def findBooking (db : DB) (bid : String) : Option BookingDoc :=
  db.bookings.find? (fun bk => bk.id == bid)

/-- findByIdAndUpdate on the hotels collection: apply the update to the
document with the given id. -/
def updateHotel (db : DB) (hid : String) (f : HotelDoc → HotelDoc) : DB :=
  { db with hotels := db.hotels.map (fun h => if h.id == hid then f h else h) }

/-- findByIdAndUpdate on the users collection. -/
def updateUser (db : DB) (uid : String) (f : UserDoc → UserDoc) : DB :=
  { db with users := db.users.map (fun u => if u.id == uid then f u else u) }

/-- findByIdAndUpdate on the bookings collection. -/
def updateBooking (db : DB) (bid : String) (f : BookingDoc → BookingDoc) : DB :=
  { db with bookings := db.bookings.map (fun bk => if bk.id == bid then f bk else bk) }

/-- findByIdAndDelete on the bookings collection: remove the first
document carrying the id. -/
def removeBooking : List BookingDoc → String → List BookingDoc
  | [], _ => []
  | bk :: t, bid => if bk.id == bid then t else bk :: removeBooking t bid

/-! ### Booking confirmation and deletion -/

/-- The relevant parts of a Stripe payment intent: its id, the hotelId
and userId stored in its metadata at creation, and its status string. -/
structure PaymentIntent where
  id : String
  hotelId : String
  userId : String
  status : String
  deriving DecidableEq

/-- paymentIntents.retrieve against the external processor, modelled as
a lookup in the processor state. -/
def retrieveIntent (intents : List PaymentIntent) (piid : String) : Option PaymentIntent :=
  intents.find? (fun pi => pi.id == piid)

/-- The outcome of a state-mutating handler: the new database state,
the HTTP status, and the response message. -/
structure HandlerResult where
  db : DB
  status : Nat
  message : String
  deriving DecidableEq

/-- The Hotel counter increment of a successful confirmation:
totalBookings plus 1 and totalRevenue plus the booking cost. -/
def hotelInc (c : Int) (h : HotelDoc) : HotelDoc :=
  { h with totalBookings := h.totalBookings + 1, totalRevenue := h.totalRevenue + c }

/-- The User counter increment of a successful confirmation. -/
def userInc (c : Int) (u : UserDoc) : UserDoc :=
  { u with totalBookings := u.totalBookings + 1, totalSpent := u.totalSpent + c }

/-- The Hotel counter decrement of the admin deletion. -/
def hotelDec (c : Int) (h : HotelDoc) : HotelDoc :=
  { h with totalBookings := h.totalBookings - 1, totalRevenue := h.totalRevenue - c }

/-- The User counter decrement of the admin deletion. -/
def userDec (c : Int) (u : UserDoc) : UserDoc :=
  { u with totalBookings := u.totalBookings - 1, totalSpent := u.totalSpent - c }

/-- The Booking document persisted by a successful confirmation. -/
def newBookingOf (hid uid : String) (b : BookingBody) (newId : String) : BookingDoc :=
  { id := newId
    userId := uid
    hotelId := hid
    totalCost := b.totalCost
    checkIn := b.checkIn
    checkOut := b.checkOut
    status := "confirmed"
    paymentStatus := "paid" }

/-- Embedding of the booking confirmation handler
(router.post "/:hotelId/bookings"), after verifyToken attached the
authenticated userId.  The validator chain runs first; then the payment
intent is retrieved, its metadata compared with the request context,
its status compared with succeeded; on success a Booking with status
confirmed and paymentStatus paid is saved and the Hotel and User
counters are incremented.  newId is the generated id of the saved
booking. -/
def confirmBooking (intents : List PaymentIntent) (db : DB)
    (reqHotelId reqUserId : String) (b : BookingBody) (newId : String) :
    HandlerResult :=
  if !(bookingValidator b) then
    { db := db, status := 400, message := "validation error" }
  else
    match retrieveIntent intents b.paymentIntentId with
    | none => { db := db, status := 400, message := "payment intent not found" }
    | some pi =>
      if !(pi.hotelId == reqHotelId) || !(pi.userId == reqUserId) then
        { db := db, status := 400, message := "payment intent mismatch" }
      else if !(pi.status == "succeeded") then
        { db := db, status := 400
          message := "payment intent not succeeded. Status: " ++ pi.status }
      else
        let db1 : DB :=
          { db with bookings := db.bookings ++ [newBookingOf reqHotelId reqUserId b newId] }
        let db2 := updateHotel db1 reqHotelId (hotelInc b.totalCost)
        let db3 := updateUser db2 reqUserId (userInc b.totalCost)
        { db := db3, status := 200, message := "" }

/-- Embedding of the admin booking deletion handler
(router.delete "/:id"): delete the booking, then decrement the Hotel
counters by 1 and the booking totalCost, and the User counters
likewise. -/
def deleteBooking (db : DB) (bid : String) : HandlerResult :=
  match findBooking db bid with
  | none => { db := db, status := 404, message := "Booking not found" }
  | some booking =>
    let db1 : DB := { db with bookings := removeBooking db.bookings bid }
    let db2 := updateHotel db1 booking.hotelId (hotelDec booking.totalCost)
    let db3 := updateUser db2 booking.userId (userDec booking.totalCost)
    { db := db3, status := 200, message := "Booking deleted successfully" }

/-- The N-fold repetition of the booking confirmation with a fixed
request: the database after N sequential confirmations. -/
def confirmN (intents : List PaymentIntent) (hid uid : String) (b : BookingBody)
    (newId : String) : Nat → DB → DB
  | 0, db => db
  | n + 1, db =>
    (confirmBooking intents (confirmN intents hid uid b newId n db) hid uid b newId).db

/-! ### Booking status update -/

/-- The statuses accepted by the status validator of
router.patch "/:id/status". -/
def validStatuses : List String :=
  ["pending", "confirmed", "cancelled", "completed", "refunded"]

/-- The update object assembled by the status handler: set the status,
attach a truthy cancellationReason when cancelling, and store the
refundAmount (falsy defaulting to 0) when refunding. -/
def applyStatusUpdate (status : String) (cancellationReason : Option String)
    (refundAmount : Option Int) (bk : BookingDoc) : BookingDoc :=
  let bk1 := { bk with status := status }
  let bk2 :=
    if status == "cancelled" then
      match cancellationReason with
      | some c => if c == "" then bk1 else { bk1 with cancellationReason := some c }
      | none => bk1
    else bk1
  if status == "refunded" then
    { bk2 with refundAmount := some (match refundAmount with
        | some r => if r == 0 then 0 else r
        | none => 0) }
  else bk2

/-- Embedding of the booking status update handler, after verifyToken:
validate the status against the allow-list, then set it on the booking
unconditionally.  There is no role gate, no ownership check, and no
state-transition guard in the source. -/
def updateBookingStatus (db : DB) (bid status : String)
    (cancellationReason : Option String) (refundAmount : Option Int) :
    HandlerResult :=
  if !(validStatuses.contains status) then
    { db := db, status := 400, message := "Invalid status" }
  else
    match findBooking db bid with
    | none => { db := db, status := 404, message := "Booking not found" }
    | some _ =>
      let db1 := updateBooking db bid
        (applyStatusUpdate status cancellationReason refundAmount)
      { db := db1, status := 200, message := "" }

/-! ### Auth middleware and role gate -/

/-- The payload of a verified access token. -/
structure TokenPayload where
  userId : String
  userRole : String
  deriving DecidableEq

/-- The parts of an incoming request read by verifyToken. -/
structure AuthRequest where
  authHeader : Option String := none
  cookies : List (String × String) := []
  deriving DecidableEq

/-- Read a cookie, with JavaScript truthiness: an empty value counts as
absent. -/
def getCookie (cs : List (String × String)) (name : String) : Option String :=
  match cs.find? (fun c => c.1 == name) with
  | some c => if c.2 == "" then none else some c.2
  | none => none

/-- The outcome of the verifyToken middleware: either the request
context is populated and the chain continues, or a 401 response is sent.
The middleware clears no cookie in either case, so the cleared-cookie
list of the failure branch is always empty in the embedding. -/
inductive AuthResult where
  | ok (userId userRole : String)
  | unauthorized (clearedCookies : List String)
  deriving DecidableEq

/-- Does the string start with the seven characters of the word Bearer
followed by a space? -/
def hasBearer (h : String) : Bool :=
  listBeginsWith h.toList ("Bearer ").toList

/-- Embedding of the verifyToken middleware.  The token is taken from
the Authorization header when that header starts with the Bearer
marker, otherwise from the cookie named session id; with no token the
request fails with 401.  jwt.verify is abstracted as the verify
function (none models a malformed or expired token).  On failure no
cookie is cleared. -/
def verifyToken (verify : String → Option TokenPayload) (req : AuthRequest) :
    AuthResult :=
  let headerTok : Option String :=
    match req.authHeader with
    | some h => if !(h == "") && hasBearer h then some (⟨h.toList.drop 7⟩ : String) else none
    | none => none
  let tok : Option String :=
    match headerTok with
    | some t => some t
    | none => getCookie req.cookies "session_id"
  match tok with
  | none => .unauthorized []
  | some t =>
    match verify t with
    | some p => .ok p.userId p.userRole
    | none => .unauthorized []

/-- The cookies set by the login handler: the access token under the
name auth token and the refresh token under the name refresh token,
both HTTP-only. -/
def loginCookies (accessToken refreshToken : String) : List (String × String) :=
  [("auth_token", accessToken), ("refresh_token", refreshToken)]

/-- The full status update route: verifyToken runs first and rejects an
unauthenticated request with 401; the handler itself never inspects the
attached userId or userRole. -/
def patchStatusRoute (verify : String → Option TokenPayload) (req : AuthRequest)
    (db : DB) (bid status : String) (cancellationReason : Option String)
    (refundAmount : Option Int) : HandlerResult :=
  match verifyToken verify req with
  | .unauthorized _ => { db := db, status := 401, message := "Unauthorized" }
  | .ok _ _ => updateBookingStatus db bid status cancellationReason refundAmount

/-- Embedding of the requireRole middleware factory: with no role on
the request context (or an empty, falsy one) respond 401, with a role
outside the allow-list respond 403, otherwise continue (none). -/
def requireRole (allowedRoles : List String) (userRole : Option String) :
    Option Nat :=
  match userRole with
  | none => some 401
  | some r =>
    if r == "" then some 401
    else if allowedRoles.contains r then none
    else some 403

/-! ### Hotel update owner check and review creation -/

/-- The owner-scoped lookup of the hotel update route:
findOne on the pair of the hotel id and the authenticated userId. -/
def findOwnedHotel (hotels : List HotelDoc) (hid uid : String) : Option HotelDoc :=
  hotels.find? (fun h => h.id == hid && h.userId == uid)

/-- The gate outcome of the hotel update route
(router.put "/:hotelId" of the my-hotels router): 404 when no hotel
with this id is owned by the caller, 200 otherwise. -/
def myHotelUpdateGate (hotels : List HotelDoc) (hid uid : String) : Nat :=
  match findOwnedHotel hotels hid uid with
  | none => 404
  | some _ => 200

/-- The statistics recomputed by the review handler over all reviews of
one hotel: average rating and count, with 0 for an empty set. -/
def reviewStats (reviews : List ReviewDoc) (hid : String) : Rat × Int :=
  let rs := reviews.filter (fun r => r.hotelId == hid)
  if rs.isEmpty then (0, 0)
  else ((rs.map (fun r => (r.rating : Rat))).sum / (rs.length : Rat), (rs.length : Int))

/-- Embedding of the review creation handler
(router.post "/:hotelId" of the reviews router), after verifyToken:
require a booking of the caller for this hotel with status paid (403
otherwise), reject a second review of the same user and hotel pair with
400, otherwise insert the review and recompute the averageRating and
reviewCount of the hotel. -/
def createReview (db : DB) (uid hid : String) (rating : Int) (comment : String) :
    HandlerResult :=
  match db.bookings.find? (fun bk =>
      bk.userId == uid && bk.hotelId == hid && bk.status == "paid") with
  | none =>
    { db := db, status := 403
      message := "You can only review hotels you have stayed in" }
  | some booking =>
    match db.reviews.find? (fun r => r.userId == uid && r.hotelId == hid) with
    | some _ =>
      { db := db, status := 400, message := "You already reviewed this hotel" }
    | none =>
      let review : ReviewDoc :=
        { userId := uid
          hotelId := hid
          bookingId := booking.id
          rating := rating
          comment := comment
          isVerified := true }
      let db1 : DB := { db with reviews := db.reviews ++ [review] }
      let stats := reviewStats db1.reviews hid
      let db2 := updateHotel db1 hid (fun h =>
        { h with averageRating := stats.1, reviewCount := stats.2 })
      { db := db2, status := 201, message := "" }

/-! ### Concrete fixtures for witnesses and counterexamples -/

/-- A sample hotel document with pristine counters. -/
def sampleHotel : HotelDoc :=
  { id := "h1", userId := "o1", city := "London", country := "UK"
    facilities := ["WiFi", "Parking"], type := ["Budget"]
    starRating := 3, pricePerNight := 100, adultCount := 2, childCount := 1
    totalBookings := 0, totalRevenue := 0, averageRating := 0, reviewCount := 0 }

/-- A sample user document with pristine counters. -/
def sampleUser : UserDoc := { id := "u1", totalBookings := 0, totalSpent := 0 }

/-- A sample booking with the status the review handler queries for. -/
def samplePaidBooking : BookingDoc :=
  { id := "b1", userId := "u1", hotelId := "h1", totalCost := 200
    checkIn := 0, checkOut := 86400000, status := "paid", paymentStatus := "paid" }

/-- A sample review of the sample hotel by the sample user. -/
def sampleReview : ReviewDoc :=
  { userId := "u1", hotelId := "h1", bookingId := "b1", rating := 5
    comment := "ok", isVerified := true }

/-- A sample database state. -/
def sampleDb : DB :=
  { hotels := [sampleHotel], users := [sampleUser]
    bookings := [samplePaidBooking], reviews := [sampleReview] }

/-- Sample processor state: a succeeded intent, a processing intent and
an intent created for a different hotel. -/
def sampleIntents : List PaymentIntent :=
  [{ id := "pi1", hotelId := "h1", userId := "u1", status := "succeeded" },
   { id := "pi2", hotelId := "h1", userId := "u1", status := "processing" },
   { id := "pi3", hotelId := "h2", userId := "u1", status := "succeeded" }]

/-- The succeeded sample intent. -/
def samplePi : PaymentIntent :=
  { id := "pi1", hotelId := "h1", userId := "u1", status := "succeeded" }

/-- The processing sample intent. -/
def samplePiProcessing : PaymentIntent :=
  { id := "pi2", hotelId := "h1", userId := "u1", status := "processing" }

/-- A sample valid confirmation body: two nights from 2025-06-01 to
2025-06-03 (millisecond timestamps). -/
def sampleBody : BookingBody :=
  { paymentIntentId := "pi1", totalCost := 300
    checkIn := 1748736000000, checkOut := 1748908800000 }

/-- A sample token verifier accepting a single token. -/
def sampleVerify : String → Option TokenPayload :=
  fun t => if t == "tok123" then some { userId := "u1", userRole := "user" } else none


/-- A sample search request: a padded destination and two types. -/
def sampleSearch : SearchParams :=
  { destination := some " lond ", types := some (.arr ["Budget", "Boutique"]) }

/-! ### General lemmas about the embedded collections -/

theorem find?_map_upd {α : Type} (p : α → Bool) (f : α → α)
    (hf : ∀ x, p (f x) = p x) (l : List α) :
    (l.map (fun x => if p x then f x else x)).find? p = (l.find? p).map f := by
  induction l with
  | nil => simp
  | cons a t ih =>
    by_cases h : p a = true
    · simp [h, hf a]
    · have h2 : p a = false := by simpa using h
      simp [h2, ih]

theorem map_upd_cancel {α : Type} (p : α → Bool) (f g : α → α)
    (hf : ∀ x, p (f x) = p x) (hgf : ∀ x, g (f x) = x) (l : List α) :
    ((l.map (fun x => if p x then f x else x)).map
        (fun x => if p x then g x else x)) = l := by
  induction l with
  | nil => rfl
  | cons a t ih =>
    by_cases h : p a = true
    · simp [h, hf a, hgf a, ih]
    · have h2 : p a = false := by simpa using h
      simp [h2, ih]

theorem removeBooking_append_fresh (bs : List BookingDoc) (bk : BookingDoc)
    (h : ∀ x ∈ bs, (x.id == bk.id) = false) :
    removeBooking (bs ++ [bk]) bk.id = bs := by
  induction bs with
  | nil => simp [removeBooking]
  | cons a t ih =>
    have ha := h a (by simp)
    simp only [List.cons_append, removeBooking, ha, Bool.false_eq_true, if_false,
      List.append_eq]
    rw [ih (fun x hx => h x (by simp [hx]))]

theorem findHotel_updateHotel (db : DB) (hid : String) (f : HotelDoc → HotelDoc)
    (hf : ∀ h, (f h).id = h.id) :
    findHotel (updateHotel db hid f) hid = (findHotel db hid).map f := by
  unfold findHotel updateHotel
  exact find?_map_upd _ f (fun x => by simp [hf x]) db.hotels

theorem findUser_updateUser (db : DB) (uid : String) (f : UserDoc → UserDoc)
    (hf : ∀ u, (f u).id = u.id) :
    findUser (updateUser db uid f) uid = (findUser db uid).map f := by
  unfold findUser updateUser
  exact find?_map_upd _ f (fun x => by simp [hf x]) db.users

theorem findBooking_updateBooking (db : DB) (bid : String)
    (f : BookingDoc → BookingDoc) (hf : ∀ bk, (f bk).id = bk.id) :
    findBooking (updateBooking db bid f) bid = (findBooking db bid).map f := by
  unfold findBooking updateBooking
  exact find?_map_upd _ f (fun x => by simp [hf x]) db.bookings

theorem confirmBooking_success (intents : List PaymentIntent) (db : DB)
    (hid uid : String) (b : BookingBody) (newId : String) (pi : PaymentIntent)
    (hv : bookingValidator b = true)
    (hpi : retrieveIntent intents b.paymentIntentId = some pi)
    (hh : pi.hotelId = hid) (hu : pi.userId = uid) (hs : pi.status = "succeeded") :
    confirmBooking intents db hid uid b newId =
      { db := updateUser
          (updateHotel
            { db with bookings := db.bookings ++ [newBookingOf hid uid b newId] }
            hid (hotelInc b.totalCost))
          uid (userInc b.totalCost)
        status := 200
        message := "" } := by
  unfold confirmBooking
  rw [hpi, hv]
  simp [hh, hu, hs]

theorem dbExt (a b : DB) (h1 : a.hotels = b.hotels) (h2 : a.users = b.users)
    (h3 : a.bookings = b.bookings) (h4 : a.reviews = b.reviews) : a = b := by
  cases a
  cases b
  cases h1
  cases h2
  cases h3
  cases h4
  rfl

theorem hotelDec_hotelInc (c : Int) (h : HotelDoc) : hotelDec c (hotelInc c h) = h := by
  simp [hotelDec, hotelInc]

theorem userDec_userInc (c : Int) (u : UserDoc) : userDec c (userInc c u) = u := by
  simp [userDec, userInc]

theorem findHotel_updateUser (db : DB) (uid hid : String) (f : UserDoc → UserDoc) :
    findHotel (updateUser db uid f) hid = findHotel db hid := rfl

theorem findHotel_setBookings (db : DB) (bs : List BookingDoc) (hid : String) :
    findHotel { db with bookings := bs } hid = findHotel db hid := rfl

theorem findUser_updateHotel (db : DB) (hid uid : String) (f : HotelDoc → HotelDoc) :
    findUser (updateHotel db hid f) uid = findUser db uid := rfl

theorem findUser_setBookings (db : DB) (bs : List BookingDoc) (uid : String) :
    findUser { db with bookings := bs } uid = findUser db uid := rfl

theorem findBooking_updateHotel (db : DB) (hid bid : String) (f : HotelDoc → HotelDoc) :
    findBooking (updateHotel db hid f) bid = findBooking db bid := rfl

theorem findBooking_updateUser (db : DB) (uid bid : String) (f : UserDoc → UserDoc) :
    findBooking (updateUser db uid f) bid = findBooking db bid := rfl

theorem deleteBooking_shape (db : DB) (bid : String) (bk : BookingDoc)
    (hfind : findBooking db bid = some bk) :
    deleteBooking db bid =
      { db := updateUser
          (updateHotel { db with bookings := removeBooking db.bookings bid }
            bk.hotelId (hotelDec bk.totalCost))
          bk.userId (userDec bk.totalCost)
        status := 200
        message := "Booking deleted successfully" } := by
  unfold deleteBooking
  rw [hfind]

theorem confirmN_findHotel (intents : List PaymentIntent) (hid uid : String)
    (b : BookingBody) (newId : String) (pi : PaymentIntent)
    (hv : bookingValidator b = true)
    (hpi : retrieveIntent intents b.paymentIntentId = some pi)
    (hh : pi.hotelId = hid) (hu : pi.userId = uid) (hs : pi.status = "succeeded")
    (db : DB) (h0 : HotelDoc) (hhot : findHotel db hid = some h0) :
    ∀ N : Nat, findHotel (confirmN intents hid uid b newId N db) hid
      = some { h0 with totalBookings := h0.totalBookings + (N : Int),
                       totalRevenue := h0.totalRevenue + (N : Int) * b.totalCost } := by
  intro N
  induction N with
  | zero => simpa using hhot
  | succ n ih =>
    show findHotel (confirmBooking intents (confirmN intents hid uid b newId n db)
      hid uid b newId).db hid = _
    rw [confirmBooking_success intents _ hid uid b newId pi hv hpi hh hu hs]
    show findHotel (updateUser (updateHotel _ hid (hotelInc b.totalCost)) uid
      (userInc b.totalCost)) hid = _
    rw [findHotel_updateUser,
      findHotel_updateHotel _ hid (hotelInc b.totalCost) (fun h => rfl),
      findHotel_setBookings, ih]
    simp only [Option.map_some', hotelInc, HotelDoc.mk.injEq]
    push_cast
    ring_nf

/-- Claim C1: a booking-confirmation request whose retrieved payment
intent has metadata hotelId or userId differing from the request
context, or whose status is not exactly succeeded, is answered 400 with
the database unchanged (no Booking created, no Hotel or User counter
mutated); when the metadata matches, the non-succeeded status string is
surfaced literally in the response message. -/
theorem confirm_rejects_mismatch_or_unsucceeded
    (intents : List PaymentIntent) (db : DB) (hid uid : String)
    (b : BookingBody) (newId : String) (pi : PaymentIntent)
    (hv : bookingValidator b = true)
    (hpi : retrieveIntent intents b.paymentIntentId = some pi)
    (hbad : ¬(pi.hotelId = hid ∧ pi.userId = uid ∧ pi.status = "succeeded")) :
    (confirmBooking intents db hid uid b newId).status = 400
    ∧ (confirmBooking intents db hid uid b newId).db = db
    ∧ (pi.hotelId = hid → pi.userId = uid →
        (confirmBooking intents db hid uid b newId).message
          = "payment intent not succeeded. Status: " ++ pi.status) := by
  unfold confirmBooking
  rw [hpi, hv]
  by_cases h1 : pi.hotelId = hid
  · by_cases h2 : pi.userId = uid
    · have h3 : ¬(pi.status = "succeeded") := fun hc => hbad ⟨h1, h2, hc⟩
      simp [h1, h2, h3]
    · simp [h2]
  · simp [h1]

/-- Claim C2: a successful confirmation increments Hotel.totalBookings
by 1 and Hotel.totalRevenue by the booking cost, and the User counters
likewise; the admin deletion decrements the same four counters by the
deleted booking's amounts; N successful confirmations of cost C from
zero counters leave Hotel.totalBookings = N and Hotel.totalRevenue =
N * C; and a confirmation followed by deletion of that booking restores
the whole database state, in particular all four counters. -/
theorem counter_consistency
    (intents : List PaymentIntent) (db : DB) (hid uid : String)
    (b : BookingBody) (newId : String) (pi : PaymentIntent)
    (h0 : HotelDoc) (u0 : UserDoc)
    (hv : bookingValidator b = true)
    (hpi : retrieveIntent intents b.paymentIntentId = some pi)
    (hh : pi.hotelId = hid) (hu : pi.userId = uid) (hs : pi.status = "succeeded")
    (hhot : findHotel db hid = some h0) (husr : findUser db uid = some u0) :
    (findHotel (confirmBooking intents db hid uid b newId).db hid
        = some { h0 with totalBookings := h0.totalBookings + 1
                         totalRevenue := h0.totalRevenue + b.totalCost }
      ∧ findUser (confirmBooking intents db hid uid b newId).db uid
        = some { u0 with totalBookings := u0.totalBookings + 1
                         totalSpent := u0.totalSpent + b.totalCost })
    ∧ (∀ (db2 : DB) (bid : String) (bk : BookingDoc), findBooking db2 bid = some bk →
        findHotel (deleteBooking db2 bid).db bk.hotelId
          = (findHotel db2 bk.hotelId).map (hotelDec bk.totalCost)
        ∧ findUser (deleteBooking db2 bid).db bk.userId
          = (findUser db2 bk.userId).map (userDec bk.totalCost))
    ∧ (h0.totalBookings = 0 → h0.totalRevenue = 0 → ∀ N : Nat,
        findHotel (confirmN intents hid uid b newId N db) hid
          = some { h0 with totalBookings := (N : Int)
                           totalRevenue := (N : Int) * b.totalCost })
    ∧ ((∀ x ∈ db.bookings, x.id ≠ newId) →
        (deleteBooking (confirmBooking intents db hid uid b newId).db newId).db = db) := by
  refine ⟨⟨?_, ?_⟩, ?_, ?_, ?_⟩
  · rw [confirmBooking_success intents db hid uid b newId pi hv hpi hh hu hs]
    show findHotel (updateUser (updateHotel _ hid (hotelInc b.totalCost)) uid
      (userInc b.totalCost)) hid = _
    rw [findHotel_updateUser,
      findHotel_updateHotel _ hid (hotelInc b.totalCost) (fun h => rfl),
      findHotel_setBookings, hhot]
    simp [hotelInc]
  · rw [confirmBooking_success intents db hid uid b newId pi hv hpi hh hu hs]
    show findUser (updateUser (updateHotel _ hid (hotelInc b.totalCost)) uid
      (userInc b.totalCost)) uid = _
    rw [findUser_updateUser _ uid (userInc b.totalCost) (fun u => rfl),
      findUser_updateHotel, findUser_setBookings, husr]
    simp [userInc]
  · intro db2 bid bk hfind
    rw [deleteBooking_shape db2 bid bk hfind]
    constructor
    · show findHotel (updateUser (updateHotel _ bk.hotelId (hotelDec bk.totalCost))
        bk.userId (userDec bk.totalCost)) bk.hotelId = _
      rw [findHotel_updateUser,
        findHotel_updateHotel _ bk.hotelId (hotelDec bk.totalCost) (fun h => rfl),
        findHotel_setBookings]
    · show findUser (updateUser (updateHotel _ bk.hotelId (hotelDec bk.totalCost))
        bk.userId (userDec bk.totalCost)) bk.userId = _
      rw [findUser_updateUser _ bk.userId (userDec bk.totalCost) (fun u => rfl),
        findUser_updateHotel, findUser_setBookings]
  · intro hb0 hr0 N
    rw [confirmN_findHotel intents hid uid b newId pi hv hpi hh hu hs db h0 hhot N]
    rw [hb0, hr0]
    simp
  · intro hfresh
    rw [confirmBooking_success intents db hid uid b newId pi hv hpi hh hu hs]
    have hfound : findBooking (updateUser
        (updateHotel { db with bookings := db.bookings ++ [newBookingOf hid uid b newId] }
          hid (hotelInc b.totalCost)) uid (userInc b.totalCost)) newId
        = some (newBookingOf hid uid b newId) := by
      show (db.bookings ++ [newBookingOf hid uid b newId]).find?
        (fun bk => bk.id == newId) = _
      rw [List.find?_append]
      have hnone : db.bookings.find? (fun bk => bk.id == newId) = none := by
        rw [List.find?_eq_none]
        intro x hx
        simp [hfresh x hx]
      rw [hnone]
      simp [newBookingOf]
    rw [deleteBooking_shape _ newId _ hfound]
    have hrm : removeBooking (db.bookings ++ [newBookingOf hid uid b newId]) newId
        = db.bookings := by
      apply removeBooking_append_fresh
      intro x hx
      simp [newBookingOf, hfresh x hx]
    apply dbExt
    · exact map_upd_cancel (fun h => h.id == hid) (hotelInc b.totalCost)
        (hotelDec b.totalCost) (fun x => rfl)
        (fun x => hotelDec_hotelInc _ _) db.hotels
    · exact map_upd_cancel (fun u => u.id == uid) (userInc b.totalCost)
        (userDec b.totalCost) (fun x => rfl)
        (fun x => userDec_userInc _ _) db.users
    · exact hrm
    · rfl

/-- Witness for C1 at a concrete processing-status intent: the request
is rejected, the database is unchanged and the status string appears
literally in the message. -/
theorem confirm_rejects_mismatch_or_unsucceeded_witness :
    (confirmBooking sampleIntents sampleDb "h1" "u1"
        { sampleBody with paymentIntentId := "pi2" } "b2").db = sampleDb
    ∧ (confirmBooking sampleIntents sampleDb "h1" "u1"
        { sampleBody with paymentIntentId := "pi2" } "b2").message
      = "payment intent not succeeded. Status: processing" := by
  have h := confirm_rejects_mismatch_or_unsucceeded sampleIntents sampleDb "h1" "u1"
    { sampleBody with paymentIntentId := "pi2" } "b2" samplePiProcessing
    (by decide) (by decide) (by decide)
  exact ⟨h.2.1, h.2.2 rfl rfl⟩

/-- Witness for C2: three confirmations of cost 300 against a pristine
hotel leave totalBookings 3 and totalRevenue 900. -/
theorem counter_consistency_witness :
    findHotel (confirmN sampleIntents "h1" "u1" sampleBody "b2" 3 sampleDb) "h1"
      = some { sampleHotel with totalBookings := 3, totalRevenue := 900 } := by
  have h := (counter_consistency sampleIntents sampleDb "h1" "u1" sampleBody "b2"
      samplePi sampleHotel sampleUser (by decide) (by decide) rfl rfl rfl
      (by decide) (by decide)).2.2.1 rfl rfl 3
  simpa [sampleBody] using h

theorem destClause_constructed (p : SearchParams) (h : HotelDoc) :
    destClause (constructSearchQuery p) h = true ↔
      ∀ d, p.destination = some d → jsTrim d ≠ "" →
        (icontains (jsTrim d) h.city = true ∨ icontains (jsTrim d) h.country = true) := by
  cases hd : p.destination with
  | none => simp [destClause, constructSearchQuery, hd]
  | some d =>
    by_cases ht : jsTrim d = ""
    · simp [destClause, constructSearchQuery, hd, ht]
    · simp [destClause, constructSearchQuery, hd, ht]

theorem facClause_constructed (p : SearchParams) (h : HotelDoc)
    (hfac : ∀ v, p.facilities = some v → v.truthy = true → v.toList ≠ []) :
    facClause (constructSearchQuery p) h = true ↔
      ∀ v, p.facilities = some v → v.truthy = true →
        ∀ f ∈ v.toList, f ∈ h.facilities := by
  cases hf : p.facilities with
  | none => simp [facClause, constructSearchQuery, hf]
  | some v =>
    by_cases ht : v.truthy = true
    · have hne := hfac v hf ht
      simp [facClause, constructSearchQuery, hf, ht, List.isEmpty_iff, hne]
    · simp [facClause, constructSearchQuery, hf, ht]

theorem typeClause_constructed (p : SearchParams) (h : HotelDoc) :
    typeClause (constructSearchQuery p) h = true ↔
      ∀ v, p.types = some v → v.truthy = true → ∃ t ∈ h.type, t ∈ v.toList := by
  cases hf : p.types with
  | none => simp [typeClause, constructSearchQuery, hf]
  | some v =>
    by_cases ht : v.truthy = true
    · simp [typeClause, constructSearchQuery, hf, ht]
    · simp [typeClause, constructSearchQuery, hf, ht]

theorem starClause_constructed (p : SearchParams) (h : HotelDoc) :
    starClause (constructSearchQuery p) h = true ↔
      ∀ v, p.stars = some v → v.truthy = true →
        ∃ s ∈ v.toList, parseIntOpt s = some h.starRating := by
  cases hf : p.stars with
  | none => simp [starClause, constructSearchQuery, hf]
  | some v =>
    by_cases ht : v.truthy = true
    · simp [starClause, constructSearchQuery, hf, ht]
    · simp [starClause, constructSearchQuery, hf, ht]

theorem priceClause_constructed (p : SearchParams) (h : HotelDoc)
    (hmax : ∀ s, p.maxPrice = some s → s ≠ "" → (parseIntOpt s).isSome) :
    priceClause (constructSearchQuery p) h = true ↔
      ∀ s, p.maxPrice = some s → s ≠ "" →
        ∃ m, parseIntOpt s = some m ∧ h.pricePerNight ≤ m := by
  cases hf : p.maxPrice with
  | none => simp [priceClause, constructSearchQuery, hf]
  | some s =>
    by_cases hs : s = ""
    · simp [priceClause, constructSearchQuery, hf, hs]
    · obtain ⟨m, hm⟩ := Option.isSome_iff_exists.mp (hmax s hf hs)
      simp [priceClause, constructSearchQuery, hf, hs, hm]

theorem adultClause_constructed (p : SearchParams) (h : HotelDoc) :
    adultClause (constructSearchQuery p) h = true ↔
      ∀ s n, p.adultCount = some s → parseIntOpt s = some n → n ≤ h.adultCount := by
  cases hf : p.adultCount with
  | none => simp [adultClause, constructSearchQuery, hf]
  | some s =>
    by_cases hs : s = ""
    · have hp0 : parseIntOpt "" = none := by decide
      simp only [adultClause, constructSearchQuery, hf, hs, hp0, Option.some.injEq]
      constructor
      · intro _ s1 n he hp
        rw [← he, hp0] at hp
        cases hp
      · intro _
        rfl
    · cases hn : parseIntOpt s with
      | none =>
        simp only [adultClause, constructSearchQuery, hf, hn, Option.some.injEq]
        have hsf : (s == "") = false := by simpa using hs
        rw [hsf]
        simp only [Bool.false_eq_true, if_false]
        constructor
        · intro _ s1 n he hp
          rw [← he, hn] at hp
          cases hp
        · intro _
          trivial
      | some n =>
        simp only [adultClause, constructSearchQuery, hf, hn, Option.some.injEq]
        have hsf : (s == "") = false := by simpa using hs
        rw [hsf]
        simp only [Bool.false_eq_true, if_false, ge_iff_le, decide_eq_true_eq]
        constructor
        · intro hle s1 n1 he hp
          rw [← he, hn] at hp
          cases hp
          exact hle
        · intro hall
          exact hall s n rfl hn

theorem childClause_constructed (p : SearchParams) (h : HotelDoc) :
    childClause (constructSearchQuery p) h = true ↔
      ∀ s n, p.childCount = some s → parseIntOpt s = some n → n ≤ h.childCount := by
  cases hf : p.childCount with
  | none => simp [childClause, constructSearchQuery, hf]
  | some s =>
    by_cases hs : s = ""
    · have hp0 : parseIntOpt "" = none := by decide
      simp only [childClause, constructSearchQuery, hf, hs, hp0, Option.some.injEq]
      constructor
      · intro _ s1 n he hp
        rw [← he, hp0] at hp
        cases hp
      · intro _
        rfl
    · cases hn : parseIntOpt s with
      | none =>
        simp only [childClause, constructSearchQuery, hf, hn, Option.some.injEq]
        have hsf : (s == "") = false := by simpa using hs
        rw [hsf]
        simp only [Bool.false_eq_true, if_false]
        constructor
        · intro _ s1 n he hp
          rw [← he, hn] at hp
          cases hp
        · intro _
          trivial
      | some n =>
        simp only [childClause, constructSearchQuery, hf, hn, Option.some.injEq]
        have hsf : (s == "") = false := by simpa using hs
        rw [hsf]
        simp only [Bool.false_eq_true, if_false, ge_iff_le, decide_eq_true_eq]
        constructor
        · intro hle s1 n1 he hp
          rw [← he, hn] at hp
          cases hp
          exact hle
        · intro hall
          exact hall s n rfl hn

/-- Claim C5: the constructed search filter matches exactly the hotels
satisfying every supplied predicate conjointly — a non-empty trimmed
destination must occur case-insensitively as a substring of city or
country, every listed facility must be present (AND), the hotel type
list must intersect the listed types (OR), the star rating must be
among the parsed stars, the price must be at most the parsed maxPrice,
and the capacities must cover the requested counts; with no filters the
right-hand side is vacuous, so every hotel matches.  maxPrice is
assumed to parse when supplied and a supplied facility list is assumed
non-empty, as produced by a query string. -/
theorem search_filter_conjunction (p : SearchParams) (h : HotelDoc)
    (hmax : ∀ s, p.maxPrice = some s → s ≠ "" → (parseIntOpt s).isSome)
    (hfac : ∀ v, p.facilities = some v → v.truthy = true → v.toList ≠ []) :
    matchesQuery (constructSearchQuery p) h = true ↔
      ((∀ d, p.destination = some d → jsTrim d ≠ "" →
          (icontains (jsTrim d) h.city = true ∨ icontains (jsTrim d) h.country = true))
       ∧ (∀ v, p.facilities = some v → v.truthy = true →
            ∀ f ∈ v.toList, f ∈ h.facilities)
       ∧ (∀ v, p.types = some v → v.truthy = true → ∃ t ∈ h.type, t ∈ v.toList)
       ∧ (∀ v, p.stars = some v → v.truthy = true →
            ∃ s ∈ v.toList, parseIntOpt s = some h.starRating)
       ∧ (∀ s, p.maxPrice = some s → s ≠ "" →
            ∃ m, parseIntOpt s = some m ∧ h.pricePerNight ≤ m)
       ∧ (∀ s n, p.adultCount = some s → parseIntOpt s = some n → n ≤ h.adultCount)
       ∧ (∀ s n, p.childCount = some s → parseIntOpt s = some n → n ≤ h.childCount)) := by
  have hm : matchesQuery (constructSearchQuery p) h =
      (destClause (constructSearchQuery p) h && facClause (constructSearchQuery p) h
        && typeClause (constructSearchQuery p) h && starClause (constructSearchQuery p) h
        && priceClause (constructSearchQuery p) h && adultClause (constructSearchQuery p) h
        && childClause (constructSearchQuery p) h) := rfl
  rw [hm]
  simp only [Bool.and_eq_true]
  rw [destClause_constructed p h, facClause_constructed p h hfac,
    typeClause_constructed p h, starClause_constructed p h,
    priceClause_constructed p h hmax, adultClause_constructed p h,
    childClause_constructed p h]
  tauto

/-- Witness for C5: the sample search matches the sample hotel, and the
theorem then yields the type-intersection fact. -/
theorem search_filter_conjunction_witness :
    ∃ t ∈ sampleHotel.type, t ∈ ["Budget", "Boutique"] := by
  have h := (search_filter_conjunction sampleSearch sampleHotel
      (fun s hs => by cases hs) (fun v hv => by cases hv)).mp (by decide)
  exact h.2.2.1 (.arr ["Budget", "Boutique"]) rfl rfl

/-- Counterexample for C6: a non-numeric page parameter does not
default to page 1 — parseInt yields NaN, modelled as none. -/
theorem invalid_page_not_defaulted :
    pageNumberOf (some "abc") = none
    ∧ ¬(pageNumberOf (some "abc") = some 1) := by decide

/-- Claim C6 (amended): search pagination uses fixed page size 5 and
reports pages as the least page count covering all matches (the ceiling
of total over 5); an absent or empty page parameter defaults to page 1
(a non-numeric one yields NaN instead of defaulting); for a catalog of
12 matching hotels page 1 holds 5 items and page 3 holds 2 items, with
pages = 3. -/
theorem search_pagination_spec (l : List HotelDoc) (pn : Int) :
    (pageNumberOf none = some 1 ∧ pageNumberOf (some "") = some 1)
    ∧ ((searchPage l pn).pagination.total ≤ (searchPage l pn).pagination.pages * pageSize
        ∧ ∀ m : Nat, (searchPage l pn).pagination.total ≤ m * pageSize →
            (searchPage l pn).pagination.pages ≤ m)
    ∧ (l.length = 12 →
        (searchPage l 1).data.length = 5
        ∧ (searchPage l 1).pagination.pages = 3
        ∧ (searchPage l 3).data.length = 2
        ∧ (searchPage l 3).pagination.pages = 3) := by
  refine ⟨⟨by decide, by decide⟩, ⟨?_, ?_⟩, ?_⟩
  · simp only [searchPage, pageSize]
    omega
  · intro m hm
    simp only [searchPage, pageSize] at hm ⊢
    omega
  · intro h12
    refine ⟨?_, ?_, ?_, ?_⟩ <;>
      simp [searchPage, pageSize, h12]

/-- Witness for C6 at a concrete 12-hotel catalog. -/
theorem search_pagination_spec_witness :
    (searchPage (List.replicate 12 sampleHotel) 1).data.length = 5
    ∧ (searchPage (List.replicate 12 sampleHotel) 3).data.length = 2 := by
  have h := (search_pagination_spec (List.replicate 12 sampleHotel) 1).2.2 (by simp)
  exact ⟨h.1, h.2.2.1⟩

/-- Counterexample for C7: a non-numeric maxPrice is not omitted from
the predicate — the constructed filter matches no hotel, although with
the filter absent the sample hotel matches. -/
theorem invalid_maxPrice_not_omitted :
    matchesQuery (constructSearchQuery { maxPrice := some "abc" }) sampleHotel = false
    ∧ matchesQuery (constructSearchQuery {}) sampleHotel = true := by decide

/-- Claim C7 (amended): the search silently absorbs malformed filter
input, but only adultCount and childCount are guarded by isNaN: a
non-numeric value there is omitted and the constructed query equals the
one built with the filter absent, while a truthy non-numeric maxPrice
or an all-non-numeric stars filter is incorporated as a NaN comparison
and the resulting predicate matches no hotel at all. -/
theorem malformed_filter_handling (p : SearchParams) (h : HotelDoc) :
    (∀ s, parseIntOpt s = none →
      constructSearchQuery { p with adultCount := some s }
        = constructSearchQuery { p with adultCount := none }
      ∧ constructSearchQuery { p with childCount := some s }
        = constructSearchQuery { p with childCount := none })
    ∧ (∀ s, p.maxPrice = some s → s ≠ "" → parseIntOpt s = none →
        matchesQuery (constructSearchQuery p) h = false)
    ∧ (∀ v, p.stars = some v → v.truthy = true →
        (∀ s ∈ v.toList, parseIntOpt s = none) →
        matchesQuery (constructSearchQuery p) h = false) := by
  refine ⟨?_, ?_, ?_⟩
  · intro s hs
    by_cases h0 : s = ""
    · constructor <;> simp [constructSearchQuery, h0]
    · constructor <;> simp [constructSearchQuery, h0, hs]
  · intro s hsp hne hnan
    have hpc : priceClause (constructSearchQuery p) h = false := by
      simp [priceClause, constructSearchQuery, hsp, hne, hnan]
    simp [matchesQuery, hpc]
  · intro v hv ht hall
    have hsc : starClause (constructSearchQuery p) h = false := by
      simp [starClause, constructSearchQuery, hv, ht, List.any_eq_true]
      intro a ha
      simp [hall a ha]
    simp [matchesQuery, hsc]

/-- Witness for C7: a malformed adultCount filter leaves the query
identical to the unfiltered one. -/
theorem malformed_filter_handling_witness :
    constructSearchQuery { adultCount := some "xyz" }
      = constructSearchQuery {} := by
  have h := ((malformed_filter_handling { adultCount := some "xyz" } sampleHotel).1
    "xyz" (by decide)).1
  exact h

/-- Counterexample for C8: with two computed nights and a supplied
numberOfNights of 0 (falsy in JavaScript) the validator accepts the
request although 0 differs from the computed night count. -/
theorem night_mismatch_zero_accepted :
    bookingValidator
      { paymentIntentId := "p", totalCost := 100,
        checkIn := 1748736000000, checkOut := 1748908800000,
        numberOfNights := some 0 } = true
    ∧ diffNights 1748736000000 1748908800000 = 2
    ∧ (0 : Int) ≠ 2 := by decide

/-- Claim C8 (amended): the validator accepts exactly the requests
whose computed night count is at least 1 and whose supplied
numberOfNights, when nonzero, equals the computed count — equal
check-in and check-out dates are always rejected and a single night is
accepted; a supplied nonzero mismatching numberOfNights is rejected,
but a supplied 0 is falsy in JavaScript and is skipped rather than
rejected. -/
theorem booking_validator_spec (b : BookingBody) :
    (bookingValidator b = true ↔
      (1 ≤ diffNights b.checkIn b.checkOut
        ∧ ∀ k, b.numberOfNights = some k →
            (k = 0 ∨ k = diffNights b.checkIn b.checkOut)))
    ∧ (∀ pid tc d n, bookingValidator
        { paymentIntentId := pid, totalCost := tc, checkIn := d, checkOut := d,
          numberOfNights := n } = false)
    ∧ bookingValidator
        { paymentIntentId := "p", totalCost := 100,
          checkIn := 1748736000000, checkOut := 1748822400000 } = true := by
  refine ⟨?_, ?_, by decide⟩
  · simp only [bookingValidator]
    by_cases hlt : diffNights b.checkIn b.checkOut < 1
    · rw [if_pos hlt]
      constructor
      · intro hfalse
        cases hfalse
      · rintro ⟨h1, _⟩
        omega
    · have h1 : 1 ≤ diffNights b.checkIn b.checkOut := by omega
      rw [if_neg hlt]
      cases hk : b.numberOfNights with
      | none =>
        simp only [hk]
        simp [h1]
      | some k =>
        simp only [hk]
        have hbool : ∀ x y : Bool, (!(!x && !y)) = true ↔ (x = true ∨ y = true) := by
          decide
        rw [hbool]
        simp only [beq_iff_eq, Option.some.injEq]
        constructor
        · intro hb
          refine ⟨h1, ?_⟩
          intro k0 hkk
          subst hkk
          exact hb
        · rintro ⟨-, hall⟩
          exact hall k rfl
  · intro pid tc d n
    simp only [bookingValidator]
    have hd : diffNights d d = 0 := by
      simp [diffNights]
    rw [hd]
    rw [if_pos (by omega : (0:Int) < 1)]

/-- Witness for C8: a supplied numberOfNights equal to the computed two
nights is accepted. -/
theorem booking_validator_spec_witness :
    bookingValidator
      { paymentIntentId := "p", totalCost := 100,
        checkIn := 1748736000000, checkOut := 1748908800000,
        numberOfNights := some 2 } = true := by
  refine ((booking_validator_spec _).1).mpr ⟨by decide, ?_⟩
  intro k hk
  injection hk with h2
  right
  rw [← h2]
  decide

theorem applyStatusUpdate_fields (st : String) (cr : Option String) (ra : Option Int)
    (bk : BookingDoc) :
    (applyStatusUpdate st cr ra bk).id = bk.id
    ∧ (applyStatusUpdate st cr ra bk).status = st := by
  unfold applyStatusUpdate
  cases cr with
  | none => split_ifs <;> simp
  | some c =>
    by_cases hc : c = "" <;>
      · split_ifs <;> simp [hc]

/-- Counterexample for C3: after a login that set the auth token cookie
to a token the verifier accepts, a request carrying exactly the login
cookies and no Authorization header is rejected with 401 and no cookie
is cleared — the middleware does not read the cookie set at login. -/
theorem verifyToken_ignores_login_cookie :
    verifyToken sampleVerify
        { authHeader := none, cookies := loginCookies "tok123" "r1" }
      = .unauthorized []
    ∧ sampleVerify "tok123" = some { userId := "u1", userRole := "user" }
    ∧ getCookie (loginCookies "tok123" "r1") "auth_token" = some "tok123" := by
  decide

/-- Claim C3 (amended): token verification takes the signed token from
the Authorization header when it starts with the Bearer marker, else
from the cookie named session id — not from the auth token cookie that
login sets; on success it attaches userId and userRole to the request
context, and on any failure (no token found, or failed verification) it
responds 401 without clearing any cookie. -/
theorem verifyToken_spec (verify : String → Option TokenPayload) (req : AuthRequest) :
    (∀ h, req.authHeader = some h → h ≠ "" → hasBearer h = true →
      verifyToken verify req =
        (match verify (⟨h.toList.drop 7⟩ : String) with
         | some p => AuthResult.ok p.userId p.userRole
         | none => AuthResult.unauthorized []))
    ∧ ((∀ h, req.authHeader = some h → h = "" ∨ hasBearer h = false) →
       ∀ t, getCookie req.cookies "session_id" = some t →
       verifyToken verify req =
         (match verify t with
          | some p => AuthResult.ok p.userId p.userRole
          | none => AuthResult.unauthorized []))
    ∧ ((∀ h, req.authHeader = some h → h = "" ∨ hasBearer h = false) →
       getCookie req.cookies "session_id" = none →
       verifyToken verify req = AuthResult.unauthorized [])
    ∧ (∀ v, verifyToken verify { authHeader := none, cookies := [("auth_token", v)] }
        = AuthResult.unauthorized []) := by
  refine ⟨?_, ?_, ?_, ?_⟩
  · intro h hh hne hb
    simp [verifyToken, hh, hb, hne]
  · intro hhdr t ht
    cases hh : req.authHeader with
    | none => simp [verifyToken, hh, ht]
    | some h =>
      rcases hhdr h hh with he | hb
      · simp [verifyToken, hh, he, ht]
      · simp [verifyToken, hh, hb, ht]
  · intro hhdr hnone
    cases hh : req.authHeader with
    | none => simp [verifyToken, hh, hnone]
    | some h =>
      rcases hhdr h hh with he | hb
      · simp [verifyToken, hh, he, hnone]
      · simp [verifyToken, hh, hb, hnone]
  · intro v
    by_cases hv : v = ""
    · simp [verifyToken, getCookie, hv]
    · simp [verifyToken, getCookie, hv]

/-- Witness for C3: the session id cookie route of the middleware at a
concrete verifier. -/
theorem verifyToken_spec_witness :
    verifyToken sampleVerify
        { authHeader := none, cookies := [("session_id", "tok123")] }
      = .ok "u1" "user" := by
  have h := (verifyToken_spec sampleVerify
      { authHeader := none, cookies := [("session_id", "tok123")] }).2.1
    (fun h0 hh0 => by cases hh0) "tok123" (by decide)
  simpa [sampleVerify] using h

/-- Counterexample for C4: a second review attempt by the same user for
the same hotel is rejected with status 400, not 409 Conflict, and
leaves the database (hence averageRating and reviewCount) unchanged. -/
theorem review_duplicate_not_conflict :
    (createReview sampleDb "u1" "h1" 4 "again").status = 400
    ∧ ¬((createReview sampleDb "u1" "h1" 4 "again").status = 409)
    ∧ (createReview sampleDb "u1" "h1" 4 "again").db = sampleDb := by
  decide

/-- Claim C4 (amended): a review is created (201) only when the caller
has a paid booking for the hotel and no review of the pair exists;
without a qualifying booking the request fails with 403 and the
database is unchanged; with a qualifying booking but an existing review
of the (userId, hotelId) pair it is rejected with 400 Bad Request (not
409) and the database — in particular the hotel averageRating and
reviewCount — is unchanged. -/
theorem review_uniqueness (db : DB) (uid hid : String) (rating : Int)
    (comment : String) :
    (db.bookings.find? (fun bk => bk.userId == uid && bk.hotelId == hid
        && bk.status == "paid") = none →
      createReview db uid hid rating comment
        = { db := db, status := 403,
            message := "You can only review hotels you have stayed in" })
    ∧ (∀ bk, db.bookings.find? (fun bk => bk.userId == uid && bk.hotelId == hid
          && bk.status == "paid") = some bk →
       ∀ r0, db.reviews.find? (fun r => r.userId == uid && r.hotelId == hid)
          = some r0 →
       createReview db uid hid rating comment
         = { db := db, status := 400, message := "You already reviewed this hotel" })
    ∧ ((createReview db uid hid rating comment).status = 201 →
        (∃ bk, db.bookings.find? (fun bk => bk.userId == uid && bk.hotelId == hid
            && bk.status == "paid") = some bk)
        ∧ db.reviews.find? (fun r => r.userId == uid && r.hotelId == hid) = none) := by
  refine ⟨?_, ?_, ?_⟩
  · intro hb
    unfold createReview
    rw [hb]
  · intro bk hb r0 hr
    unfold createReview
    rw [hb, hr]
  · intro hs
    unfold createReview at hs
    cases hb : db.bookings.find? (fun bk => bk.userId == uid && bk.hotelId == hid
        && bk.status == "paid") with
    | none =>
      rw [hb] at hs
      simp at hs
    | some bk =>
      rw [hb] at hs
      cases hr : db.reviews.find? (fun r => r.userId == uid && r.hotelId == hid) with
      | some r0 =>
        rw [hr] at hs
        simp at hs
      | none => exact ⟨⟨bk, rfl⟩, rfl⟩

/-- Witness for C4: the duplicate-review rejection at the sample
database. -/
theorem review_uniqueness_witness :
    createReview sampleDb "u1" "h1" 4 "again"
      = { db := sampleDb, status := 400,
          message := "You already reviewed this hotel" } := by
  exact (review_uniqueness sampleDb "u1" "h1" 4 "again").2.1
    samplePaidBooking (by decide) sampleReview (by decide)

/-- Claim C9: the role gate answers 401 when no role context is present,
403 when the attached role is outside the allow-list (roles are flat and
non-hierarchical: exactly list membership decides), and the hotel update
route answers 404 — not 403 — when the caller owns no hotel with the
target id. -/
theorem role_gate_spec (allowedRoles : List String) (r : String)
    (hotels : List HotelDoc) (hid uid : String) :
    requireRole allowedRoles none = some 401
    ∧ (r ≠ "" → ¬(r ∈ allowedRoles) → requireRole allowedRoles (some r) = some 403)
    ∧ (r ≠ "" → r ∈ allowedRoles → requireRole allowedRoles (some r) = none)
    ∧ ((∀ h ∈ hotels, h.id = hid → ¬(h.userId = uid)) →
        myHotelUpdateGate hotels hid uid = 404) := by
  refine ⟨rfl, ?_, ?_, ?_⟩
  · intro hne hnm
    simp [requireRole, hne, hnm]
  · intro hne hm
    simp [requireRole, hne, hm]
  · intro howner
    unfold myHotelUpdateGate findOwnedHotel
    have hnone : hotels.find? (fun h => h.id == hid && h.userId == uid) = none := by
      rw [List.find?_eq_none]
      intro x hx
      simp only [Bool.and_eq_true, beq_iff_eq, not_and]
      exact howner x hx
    rw [hnone]

/-- Witness for C9: a user-role token on an admin-gated operation gets
403, and a hotel owner updating a hotel of another owner gets 404. -/
theorem role_gate_spec_witness :
    requireRole ["admin"] (some "user") = some 403
    ∧ myHotelUpdateGate [sampleHotel] "h1" "u1" = 404 := by
  have h := role_gate_spec ["admin"] "user" [sampleHotel] "h1" "u1"
  refine ⟨h.2.1 (by decide) (by decide), h.2.2.2 ?_⟩
  intro x hx
  simp only [List.mem_singleton] at hx
  subst hx
  intro _
  decide

/-- Claim C10: any authenticated caller — whatever userId and userRole
the token carries — can set any existing booking to any status of the
allow-list: the route answers 200 and stores the requested status; the
handler applies no role gate, no ownership check and no
state-transition guard. -/
theorem patch_status_unguarded (verify : String → Option TokenPayload)
    (req : AuthRequest) (uid role : String) (db : DB) (bid st : String)
    (cr : Option String) (ra : Option Int) (bk : BookingDoc)
    (hauth : verifyToken verify req = .ok uid role)
    (hst : st ∈ validStatuses)
    (hbk : findBooking db bid = some bk) :
    (patchStatusRoute verify req db bid st cr ra).status = 200
    ∧ findBooking (patchStatusRoute verify req db bid st cr ra).db bid
        = some (applyStatusUpdate st cr ra bk)
    ∧ (applyStatusUpdate st cr ra bk).status = st := by
  have hroute : patchStatusRoute verify req db bid st cr ra
      = updateBookingStatus db bid st cr ra := by
    unfold patchStatusRoute
    rw [hauth]
  have hc : (validStatuses.contains st) = true := by
    simpa using hst
  have hupd : updateBookingStatus db bid st cr ra
      = { db := updateBooking db bid (applyStatusUpdate st cr ra),
          status := 200, message := "" } := by
    unfold updateBookingStatus
    rw [hc]
    simp only [Bool.not_true, Bool.false_eq_true, if_false]
    rw [hbk]
  rw [hroute, hupd]
  refine ⟨rfl, ?_, (applyStatusUpdate_fields st cr ra bk).2⟩
  show findBooking (updateBooking db bid (applyStatusUpdate st cr ra)) bid = _
  rw [findBooking_updateBooking db bid _
    (fun x => (applyStatusUpdate_fields st cr ra x).1), hbk]
  rfl

/-- Witness for C10: a plain user token completes a booking it does not
own. -/
theorem patch_status_unguarded_witness :
    (patchStatusRoute sampleVerify
        { authHeader := none, cookies := [("session_id", "tok123")] }
        sampleDb "b1" "completed" none none).status = 200
    ∧ findBooking (patchStatusRoute sampleVerify
        { authHeader := none, cookies := [("session_id", "tok123")] }
        sampleDb "b1" "completed" none none).db "b1"
      = some (applyStatusUpdate "completed" none none samplePaidBooking) := by
  have h := patch_status_unguarded sampleVerify
    { authHeader := none, cookies := [("session_id", "tok123")] } "u1" "user"
    sampleDb "b1" "completed" none none samplePaidBooking
    (by decide) (by decide) (by decide)
  exact ⟨h.1, h.2.1⟩

end HotelBooking
